import Mathlib

/-!
Shallow embedding of the HX711 load-cell driver (src/src/HX711.cpp) and the
calibration layer AbstractScale (src/unnamed/part_000, the AbstractScale
implementation file), together with theorems settling the spec claims.

Hardware and OS effects (GPIO reads/writes, sleeps, locks, threads) are
modelled by explicit parameters: a raw transaction outcome is a parameter of
setConfig, the per-iteration environment of the background watcher is a
parameter of watchIter, and the bounded wait outcome is a parameter of
getValue.  Machine integers are modelled by Int (values fit in 32 bits in all
the code paths embedded here); the C++ double is modelled by Rat.
-/

namespace HX711

/-- The input multiplexer channel of the chip (enum Channel from the driver
header; its two members A and B are the ones used in src/src/HX711.cpp). -/
inductive Channel
  | A
  | B
deriving DecidableEq, Fintype

/-- The amplifier gain setting (enum Gain from the driver header; its three
members are the ones used in src/src/HX711.cpp). -/
inductive Gain
  | GAIN_128
  | GAIN_32
  | GAIN_64
deriving DecidableEq, Fintype

/-- Bit or byte ordering flag (enum Format). -/
inductive Format
  | MSB
  | LSB
deriving DecidableEq, Fintype

/-- State of the background watcher task (enum PinWatchState). -/
inductive PinWatchState
  | NONE
  | NORMAL
  | END
  | PAUSE
deriving DecidableEq, Fintype

/-- Modelled from the spec: HX_MIN_VALUE from include/Value.h (not under
src/); the spec fixes the representable range as negative two to the
twenty-third power up to two to the twenty-third power minus one. -/
def HX_MIN_VALUE : Int := -(2 ^ 23)

/-- Modelled from the spec: HX_MAX_VALUE from include/Value.h (not under
src/). -/
def HX_MAX_VALUE : Int := 2 ^ 23 - 1

/-- Embedding of HX711::_convertFromTwosComplement.  The C++ argument is an
int32 holding the 24-bit field assembled by _readInt, which is always
non-negative, so the argument is taken as a natural number here. -/
def _convertFromTwosComplement (val : Nat) : Int :=
  -(((val &&& 0x800000 : Nat) : Int)) + ((val &&& 0x7fffff : Nat) : Int)

/-- The mathematical 24-bit two's-complement encoding of an integer, used to
state the round-trip property of the spec (the repository has no encoder; this
is the standard encoding the spec refers to). -/
def toTwosComplement24 (n : Int) : Nat :=
  (n % 2 ^ 24).toNat

/-- Embedding of HX711::_isSaturated. -/
def _isSaturated (v : Int) : Bool :=
  v == HX_MIN_VALUE || v == HX_MAX_VALUE

/-- Embedding of _BYTES_PER_CONVERSION_PERIOD (three bytes per conversion
period, per the spec and the three-byte reads of src/src/HX711.cpp). -/
def BYTES_PER_CONVERSION_PERIOD : Nat := 3

/-- Modelled from the spec: the PULSES table from the driver header (not
under src/), indexed by gain; Gain 128 and Gain 32 require 25 total clock
pulses and Gain 64 requires 27. -/
def PULSES : Gain → Nat
  | Gain.GAIN_128 => 25
  | Gain.GAIN_32 => 25
  | Gain.GAIN_64 => 27

/-- The number of trailing clock pulses issued by HX711::_readRawBytes after
the three data bytes: PULSES[gain] minus the 24 pulses already made. -/
def pulsesNeeded (g : Gain) : Nat :=
  PULSES g - 8 * BYTES_PER_CONVERSION_PERIOD

/-- Total clock pulses of one raw transaction in HX711::_readRawBytes: eight
per byte for three bytes, plus the trailing pulses. -/
def totalClockPulses (g : Gain) : Nat :=
  8 * BYTES_PER_CONVERSION_PERIOD + pulsesNeeded g

/-- Errors thrown by the driver paths embedded here: std::invalid_argument
and TimeoutException. -/
inductive DriverError
  | invalidArgument
  | timeout
deriving DecidableEq

/-- The in-memory driver state set by the HX711::HX711 constructor.  The
GPIO handle, the maximum wait duration and the three sleep durations are OS
or timing resources with no bearing on the embedded claims and are omitted. -/
structure HX711State where
  dataPin : Int
  clockPin : Int
  lastVal : Int
  watchState : PinWatchState
  channel : Channel
  gain : Gain
  bitFormat : Format
  byteFormat : Format
deriving DecidableEq

/-- Embedding of the HX711::HX711 constructor member-initializer list. -/
def construct (dataPin clockPin : Int) : HX711State :=
  { dataPin := dataPin
    clockPin := clockPin
    lastVal := HX_MAX_VALUE
    watchState := PinWatchState.NONE
    channel := Channel.A
    gain := Gain.GAIN_128
    bitFormat := Format.MSB
    byteFormat := Format.MSB }

/-- Embedding of HX711::getChannel. -/
def getChannel (st : HX711State) : Channel :=
  st.channel

/-- Embedding of HX711::getGain. -/
def getGain (st : HX711State) : Gain :=
  st.gain

/-- Embedding of HX711::getValue.  The condition-variable wait is modelled by
the boolean wokenWithinMaxWait: true when _dataReady is signalled within
_maxWait, false on timeout (in which case the code throws TimeoutException). -/
def getValue (st : HX711State) (wokenWithinMaxWait : Bool) : Except DriverError Int :=
  if wokenWithinMaxWait then Except.ok st.lastVal else Except.error DriverError.timeout

/-- The guard of HX711::setConfig written as a boolean: the code throws
std::invalid_argument when channel A is paired with gain 32 or channel B with
a gain other than 32, and accepts every other pairing. -/
def validConfigPairing (c : Channel) (g : Gain) : Bool :=
  !(c == Channel.A && g == Gain.GAIN_32) && !(c == Channel.B && g != Gain.GAIN_32)

/-- Result of one setConfig call: the driver state after the call, the number
of raw transactions performed against the hardware, and the error thrown if
any. -/
structure SetConfigResult where
  cfg : HX711State
  hwReads : Nat
  err : Option DriverError
deriving DecidableEq

/-- Embedding of HX711::setConfig.  The outcome of the propagating
_readRawBytes call is modelled by the boolean hwTimeout: true when that raw
transaction throws TimeoutException.  The code stages the new channel and
gain, performs the read, and on timeout restores the backups and rethrows. -/
def setConfig (st : HX711State) (c : Channel) (g : Gain) (hwTimeout : Bool) : SetConfigResult :=
  if c = Channel.A ∧ g = Gain.GAIN_32 then
    { cfg := st, hwReads := 0, err := some DriverError.invalidArgument }
  else if c = Channel.B ∧ g ≠ Gain.GAIN_32 then
    { cfg := st, hwReads := 0, err := some DriverError.invalidArgument }
  else
    let backupChannel := st.channel
    let backupGain := st.gain
    let staged := { st with channel := c, gain := g }
    if hwTimeout then
      { cfg := { staged with channel := backupChannel, gain := backupGain }
        hwReads := 1
        err := some DriverError.timeout }
    else
      { cfg := staged, hwReads := 1, err := none }

/-- Per-iteration environment of the HX711::_watchPin loop: the watcher state
observed at the top of the iteration, the result of isReady, and the value
_readInt would return if a read takes place. -/
structure WatchIterInput where
  watchState : PinWatchState
  ready : Bool
  readValue : Int

/-- Outcome of one HX711::_watchPin loop iteration: whether the loop
continues, and the value stored into _lastVal if this iteration publishes. -/
structure WatchIterOutcome where
  continues : Bool
  published : Option Int
deriving DecidableEq

/-- Embedding of one iteration of the HX711::_watchPin loop body: break on
END; on PAUSE yield and re-check; if not ready, sleep and re-check; read a
value; if it is saturated, sleep and retry without publishing; otherwise
store it as _lastVal and notify all readers. -/
def watchIter (inp : WatchIterInput) : WatchIterOutcome :=
  if inp.watchState = PinWatchState.END then
    { continues := false, published := none }
  else if inp.watchState = PinWatchState.PAUSE then
    { continues := true, published := none }
  else if !inp.ready then
    { continues := true, published := none }
  else if _isSaturated inp.readValue then
    { continues := true, published := none }
  else
    { continues := true, published := some inp.readValue }

/-- The _lastVal cell after the HX711::_watchPin loop has consumed a finite
trace of per-iteration environments, starting from a given cell value. -/
def watchRun (lastVal : Int) : List WatchIterInput → Int
  | [] => lastVal
  | inp :: rest =>
    let o := watchIter inp
    if o.continues then watchRun (o.published.getD lastVal) rest else lastVal

/-- The aggregation selector of AbstractScale::read (enum ReadType).  The
Unknown member stands for any enumerator value other than Median and Average,
which the switch statement of read routes to its default case. -/
inductive ReadType
  | Median
  | Average
  | Unknown
deriving DecidableEq

/-- Errors thrown by the scale paths embedded here: std::range_error,
std::invalid_argument, and the TimeoutException a raw-value source may throw
while producing samples. -/
inductive ScaleError
  | rangeError
  | invalidArgument
  | timeout
deriving DecidableEq

/-- The unit tag Mass::Unit is external to the repository; it is an
enumerator tag, modelled abstractly by a natural number. -/
abbrev MassUnit := Nat

/-- The fields of AbstractScale: mass unit tag, reference unit and offset
(the Value type of include/Value.h is an integer type). -/
structure ScaleState where
  massUnit : MassUnit
  refUnit : Int
  offset : Int
deriving DecidableEq

/-- Embedding of the AbstractScale constructor: stores the three arguments
with no validation (noexcept, no checks). -/
def AbstractScale.construct (massUnit : MassUnit) (refUnit offset : Int) : ScaleState :=
  { massUnit := massUnit, refUnit := refUnit, offset := offset }

/-- Embedding of AbstractScale::setReferenceUnit: throws
std::invalid_argument on zero, otherwise stores the new reference unit. -/
def setReferenceUnit (st : ScaleState) (refUnit : Int) : Except ScaleError ScaleState :=
  if refUnit = 0 then Except.error ScaleError.invalidArgument
  else Except.ok { st with refUnit := refUnit }

/-- Embedding of AbstractScale::normalise: subtract the offset and divide by
the reference unit.  The C++ guard is only an assert (compiled out in release
builds), so the function is total here exactly as in the code. -/
def normalise (st : ScaleState) (v : Rat) : Rat :=
  (v - (st.offset : Rat)) / (st.refUnit : Rat)

/-- Modelled from the spec: Utility::median from include/Utility.h (not under
src/) — sort ascending; odd count takes the middle element, even count the
arithmetic mean of the two middle elements. -/
def Utility.median (vals : List Int) : Rat :=
  let s := List.insertionSort (· ≤ ·) vals
  let n := s.length
  if n % 2 = 1 then ((s.getD (n / 2) 0 : Int) : Rat)
  else (((s.getD (n / 2 - 1) 0 : Int) : Rat) + ((s.getD (n / 2) 0 : Int) : Rat)) / 2

/-- Modelled from the spec: Utility::average from include/Utility.h (not
under src/) — the arithmetic mean of the samples. -/
def Utility.average (vals : List Int) : Rat :=
  ((vals.sum : Int) : Rat) / (vals.length : Rat)

/-- The aggregate a known read type computes over the collected samples (0
for the Unknown type, which never reaches an aggregation). -/
def aggregateOf (rt : ReadType) (vals : List Int) : Rat :=
  match rt with
  | ReadType.Median => Utility.median vals
  | ReadType.Average => Utility.average vals
  | ReadType.Unknown => 0

/-- A raw-value source: the pure-virtual AbstractScale::getValues, which
produces the requested number of samples or throws (for the driver-backed
subclass, a TimeoutException). -/
abbrev SampleSource := Nat → Except ScaleError (List Int)

/-- Result of one AbstractScale::read call: the returned normalized value or
the thrown error, and whether getValues was invoked (i.e. whether samples
were drawn from the raw-value source before returning). -/
structure ReadOutcome where
  result : Except ScaleError Rat
  sourceCalled : Bool

/-- Embedding of AbstractScale::read: reject a zero sample count with
std::range_error; collect the samples via getValues; then switch on the read
type — Median and Average aggregate and normalise, any other value throws
std::invalid_argument.  Note the samples are collected before the switch. -/
def AbstractScale.read (st : ScaleState) (rt : ReadType) (samples : Nat)
    (src : SampleSource) : ReadOutcome :=
  if samples = 0 then
    { result := Except.error ScaleError.rangeError, sourceCalled := false }
  else
    match src samples with
    | Except.error e => { result := Except.error e, sourceCalled := true }
    | Except.ok vals =>
      match rt with
      | ReadType.Median =>
        { result := Except.ok (normalise st (Utility.median vals)), sourceCalled := true }
      | ReadType.Average =>
        { result := Except.ok (normalise st (Utility.average vals)), sourceCalled := true }
      | ReadType.Unknown =>
        { result := Except.error ScaleError.invalidArgument, sourceCalled := true }

/-- Embedding of std::round applied to the normalized double in
AbstractScale::zero: round half away from zero. -/
def roundHalfAwayFromZero (q : Rat) : Int :=
  if q < 0 then -(Rat.floor (-q + 1 / 2)) else Rat.floor (q + 1 / 2)

/-- Result of one AbstractScale::zero call: the scale state after the call
(mutations before a throw persist, as in the C++ code), the error thrown if
any, and whether samples were drawn from the raw-value source. -/
structure ZeroOutcome where
  state : ScaleState
  err : Option ScaleError
  sourceCalled : Bool

/-- Embedding of AbstractScale::zero: reject a zero sample count; back up the
reference unit; setReferenceUnit(1) (always succeeds since 1 is non-zero);
set the offset to the rounded result of read; restore the backup through
setReferenceUnit.  There is no catch block, so when read throws, the state
keeps reference unit 1; and restoring a zero backup itself throws. -/
def AbstractScale.zero (st : ScaleState) (rt : ReadType) (samples : Nat)
    (src : SampleSource) : ZeroOutcome :=
  if samples = 0 then
    { state := st, err := some ScaleError.rangeError, sourceCalled := false }
  else
    let backup := st.refUnit
    let st1 : ScaleState := { st with refUnit := 1 }
    let r := AbstractScale.read st1 rt samples src
    match r.result with
    | Except.error e => { state := st1, err := some e, sourceCalled := r.sourceCalled }
    | Except.ok v =>
      let st2 : ScaleState := { st1 with offset := roundHalfAwayFromZero v }
      if backup = 0 then
        { state := st2, err := some ScaleError.invalidArgument, sourceCalled := r.sourceCalled }
      else
        { state := { st2 with refUnit := backup }, err := none, sourceCalled := r.sourceCalled }

/-- Helper: a single watcher iteration only ever publishes a value that the
saturation predicate rejects (the saturated branch skips publication). -/
lemma watchIter_publish_nonsaturated (inp : WatchIterInput) (v : Int)
    (h : (watchIter inp).published = some v) : _isSaturated v = false := by
  unfold watchIter at h
  repeat' split at h
  all_goals simp_all

/-- C6: the saturation predicate holds for a decoded value v if and only if v
equals negative 2 to the 23rd or 2 to the 23rd minus one; it is false for
every other value. -/
theorem c6_saturation_predicate (v : Int) :
    _isSaturated v = true ↔ (v = -(2 ^ 23) ∨ v = 2 ^ 23 - 1) := by
  simp [_isSaturated, HX_MIN_VALUE, HX_MAX_VALUE]

/-- C7: after the 24 clock pulses of the three data bytes, the driver issues
exactly enough trailing pulses for a total of 25 pulses at gain 128, 25 at
gain 32, and 27 at gain 64. -/
theorem c7_total_pulse_counts :
    totalClockPulses Gain.GAIN_128 = 25 ∧ totalClockPulses Gain.GAIN_32 = 25 ∧
      totalClockPulses Gain.GAIN_64 = 27 ∧ pulsesNeeded Gain.GAIN_128 = 1 ∧
      pulsesNeeded Gain.GAIN_32 = 1 ∧ pulsesNeeded Gain.GAIN_64 = 3 := by
  decide

/-- C2: for every valid channel/gain pairing, when the propagating raw read
times out, setConfig restores the in-memory channel and gain to their
pre-call values and re-raises the timeout, so the visible configuration
equals the configuration before the call. -/
theorem c2_setConfig_rollback_on_timeout (st : HX711State) (c : Channel) (g : Gain)
    (hvalid : validConfigPairing c g = true) :
    setConfig st c g true = { cfg := st, hwReads := 1, err := some DriverError.timeout } := by
  cases c <;> cases g <;> simp_all [validConfigPairing, setConfig]

/-- Witness for C2 at a concrete state and pairing. -/
theorem c2_rollback_witness :
    setConfig (construct 5 6) Channel.B Gain.GAIN_32 true =
      { cfg := construct 5 6, hwReads := 1, err := some DriverError.timeout } :=
  c2_setConfig_rollback_on_timeout (construct 5 6) Channel.B Gain.GAIN_32 (by decide)

/-- C3: exactly the pairings (A,128), (A,64), (B,32) pass the setConfig
guard; for a valid pairing with a successful propagating read the getters
reflect the new pairing; every other pairing fails with invalid_argument
before any hardware interaction and leaves the configuration unchanged;
and setConfig preserves validity of the stored pairing. -/
theorem c3_setConfig_valid_pairings :
    (∀ c g, validConfigPairing c g = true ↔
        ((c = Channel.A ∧ g = Gain.GAIN_128) ∨ (c = Channel.A ∧ g = Gain.GAIN_64) ∨
          (c = Channel.B ∧ g = Gain.GAIN_32)))
    ∧ (∀ st c g, validConfigPairing c g = true →
        setConfig st c g false =
          { cfg := { st with channel := c, gain := g }, hwReads := 1, err := none }
        ∧ getChannel (setConfig st c g false).cfg = c
        ∧ getGain (setConfig st c g false).cfg = g)
    ∧ (∀ st c g hw, validConfigPairing c g = false →
        setConfig st c g hw = { cfg := st, hwReads := 0, err := some DriverError.invalidArgument })
    ∧ (∀ st c g hw, validConfigPairing st.channel st.gain = true →
        validConfigPairing (getChannel (setConfig st c g hw).cfg)
          (getGain (setConfig st c g hw).cfg) = true) := by
  refine ⟨by decide, ?_, ?_, ?_⟩
  · intro st c g h
    cases c <;> cases g <;>
      simp_all [validConfigPairing, setConfig, getChannel, getGain]
  · intro st c g hw h
    cases c <;> cases g <;> cases hw <;>
      simp_all [validConfigPairing, setConfig]
  · intro st c g hw h
    cases c <;> cases g <;> cases hw <;>
      simp_all [validConfigPairing, setConfig, getChannel, getGain]

/-- Witness for C3 at a concrete state and pairing. -/
theorem c3_valid_pairings_witness :
    setConfig (construct 5 6) Channel.A Gain.GAIN_64 false =
      { cfg := { construct 5 6 with channel := Channel.A, gain := Gain.GAIN_64 }
        hwReads := 1, err := none } :=
  (c3_setConfig_valid_pairings.2.1 (construct 5 6) Channel.A Gain.GAIN_64 (by decide)).1

/-- C8: a watcher iteration never publishes a saturated value, and the cell
after any finite run of the watcher loop holds either its initial value or a
non-saturated one. -/
theorem c8_watcher_publishes_only_nonsaturated :
    (∀ inp v, (watchIter inp).published = some v → _isSaturated v = false)
    ∧ (∀ (lastVal : Int) (inps : List WatchIterInput),
        watchRun lastVal inps = lastVal ∨ _isSaturated (watchRun lastVal inps) = false) := by
  refine ⟨watchIter_publish_nonsaturated, ?_⟩
  intro lastVal inps
  induction inps generalizing lastVal with
  | nil => exact Or.inl rfl
  | cons inp rest ih =>
    simp only [watchRun]
    split
    · rcases hp : (watchIter inp).published with _ | v
      · simpa [hp] using ih lastVal
      · have hv := watchIter_publish_nonsaturated inp v hp
        rcases ih v with h1 | h1
        · right
          simpa [h1] using hv
        · right
          simpa using h1
    · exact Or.inl rfl

/-- Witness for C8 at a concrete iteration input. -/
theorem c8_watcher_witness : _isSaturated 7 = false :=
  c8_watcher_publishes_only_nonsaturated.1
    { watchState := PinWatchState.NORMAL, ready := true, readValue := 7 } 7 rfl

/-- C9: the constructor initializes the last published value to
HX_MAX_VALUE, which the saturation predicate accepts; a bounded-wait getValue
woken before the first publication returns that saturated value; yet the
watcher itself never publishes a saturated value. -/
theorem c9_initial_value_saturated (d c : Int) :
    (construct d c).lastVal = HX_MAX_VALUE
    ∧ _isSaturated (construct d c).lastVal = true
    ∧ getValue (construct d c) true = Except.ok HX_MAX_VALUE
    ∧ (∀ inp v, (watchIter inp).published = some v → _isSaturated v = false) := by
  refine ⟨rfl, ?_, rfl, watchIter_publish_nonsaturated⟩
  show _isSaturated HX_MAX_VALUE = true
  norm_num [_isSaturated, HX_MIN_VALUE, HX_MAX_VALUE]

/-- Witness for C9 at a concrete iteration input. -/
theorem c9_initial_value_witness : _isSaturated 3 = false :=
  (c9_initial_value_saturated 1 2).2.2.2
    { watchState := PinWatchState.NORMAL, ready := true, readValue := 3 } 3 rfl

/-- C10: the scale constructor stores any reference unit, zero included,
without validation; the non-zero invariant is enforced only by
setReferenceUnit; and normalise on a scale built with reference unit zero
divides by zero (the C++ guard is only an assert, not an error path). -/
theorem c10_constructor_accepts_zero_reference (u : MassUnit) (r o : Int) (v : Rat) :
    AbstractScale.construct u r o = { massUnit := u, refUnit := r, offset := o }
    ∧ (∀ st : ScaleState, setReferenceUnit st 0 = Except.error ScaleError.invalidArgument)
    ∧ normalise (AbstractScale.construct u 0 o) v = (v - (o : Rat)) / 0 := by
  refine ⟨rfl, fun st => rfl, ?_⟩
  simp [normalise, AbstractScale.construct]

/-- Helper: the decode expression equals the low 23 bits minus the sign-bit
contribution. -/
lemma convert_characterization (f : Nat) :
    _convertFromTwosComplement f =
      ((f % 2 ^ 23 : Nat) : Int) - (if f.testBit 23 then (2 ^ 23 : Int) else 0) := by
  have h1 : f &&& 0x7fffff = f % 2 ^ 23 := by
    have h := Nat.and_pow_two_sub_one_eq_mod f 23
    norm_num at h ⊢
    exact h
  have h2 : f &&& 0x800000 = (f.testBit 23).toNat * 2 ^ 23 := by
    have h := Nat.and_two_pow f 23
    norm_num at h ⊢
    exact h
  unfold _convertFromTwosComplement
  rw [h1, h2]
  rcases hb : f.testBit 23
  · norm_num
  · push_cast
    norm_num
    ring

/-- Helper: the decode characterization with explicit numerals and the sign
bit written via division and remainder. -/
lemma convert_char_num (f : Nat) :
    _convertFromTwosComplement f =
      ((f % 8388608 : Nat) : Int) - (if f / 8388608 % 2 = 1 then (8388608 : Int) else 0) := by
  rw [convert_characterization, Nat.testBit_to_div_mod]
  norm_num

/-- C5: decoding the 24-bit two's-complement encoding of any integer in the
representable range yields that integer back, and every decoded value lies in
the representable range. -/
theorem c5_twos_complement_roundtrip :
    (∀ n : Int, -(2 ^ 23) ≤ n → n ≤ 2 ^ 23 - 1 →
        _convertFromTwosComplement (toTwosComplement24 n) = n)
    ∧ (∀ f : Nat,
        -(2 ^ 23) ≤ _convertFromTwosComplement f ∧ _convertFromTwosComplement f ≤ 2 ^ 23 - 1) := by
  have hpow23 : (2 : Int) ^ 23 = 8388608 := by norm_num
  have hpow24 : (2 : Int) ^ 24 = 16777216 := by norm_num
  constructor
  · intro n h1 h2
    rw [convert_char_num]
    unfold toTwosComplement24
    have hnn : 0 ≤ n % 2 ^ 24 := Int.emod_nonneg n (by norm_num)
    have hfc : (((n % 2 ^ 24).toNat : Nat) : Int) = n % 2 ^ 24 := Int.toNat_of_nonneg hnn
    rw [hpow24] at hfc ⊢
    rw [hpow23] at h1
    norm_num at h2
    generalize (n % 16777216).toNat = f at hfc ⊢
    by_cases hd : f / 8388608 % 2 = 1 <;> simp only [hd, if_true, if_false] <;>
      push_cast <;> omega
  · intro f
    rw [convert_char_num]
    simp only [hpow23]
    have hlt : f % 8388608 < 8388608 := Nat.mod_lt f (by norm_num)
    by_cases hd : f / 8388608 % 2 = 1 <;> simp only [hd, if_true, if_false] <;>
      push_cast <;> omega

/-- Witness for C5 at concrete inputs on both sides of zero. -/
theorem c5_roundtrip_witness :
    _convertFromTwosComplement (toTwosComplement24 (-2)) = -2 ∧
      _convertFromTwosComplement (toTwosComplement24 300) = 300 :=
  ⟨c5_twos_complement_roundtrip.1 (-2) (by norm_num) (by norm_num),
    c5_twos_complement_roundtrip.1 300 (by norm_num) (by norm_num)⟩

/-- C1 counterexample: zero on a scale with reference unit 5 whose sample
source fails with a timeout leaves the reference unit at 1, not at its
pre-call value, refuting the claim that the reference unit is restored
whether zero returns normally or fails. -/
theorem c1_zero_counterexample :
    (AbstractScale.zero ⟨0, 5, 0⟩ ReadType.Average 1
        (fun _ => Except.error ScaleError.timeout)).err = some ScaleError.timeout
    ∧ (AbstractScale.zero ⟨0, 5, 0⟩ ReadType.Average 1
        (fun _ => Except.error ScaleError.timeout)).state.refUnit = 1
    ∧ (AbstractScale.zero ⟨0, 5, 0⟩ ReadType.Average 1
        (fun _ => Except.error ScaleError.timeout)).state.refUnit ≠ 5 := by
  refine ⟨rfl, rfl, ?_⟩
  decide

/-- C1 (amended): for a known aggregation kind, a sample count of at least
one and a non-zero pre-call reference unit, zero on normal return sets the
offset to the rounded aggregate minus the old offset and restores the saved
reference unit; but when the inner read fails, the failure propagates and the
reference unit is left at 1, not restored to its pre-call value. -/
theorem c1_zero_behaviour (u : MassUnit) (r o : Int) (rt : ReadType) (n : Nat)
    (src : SampleSource) (hrt : rt ≠ ReadType.Unknown) (hn : n ≠ 0) (hr : r ≠ 0) :
    (∀ vals, src n = Except.ok vals →
      AbstractScale.zero ⟨u, r, o⟩ rt n src =
        { state := ⟨u, r, roundHalfAwayFromZero (aggregateOf rt vals - (o : Rat))⟩
          err := none
          sourceCalled := true })
    ∧ (∀ e, src n = Except.error e →
      AbstractScale.zero ⟨u, r, o⟩ rt n src =
        { state := ⟨u, 1, o⟩, err := some e, sourceCalled := true }) := by
  constructor
  · intro vals hsrc
    cases rt <;>
      simp_all [AbstractScale.zero, AbstractScale.read, normalise, aggregateOf, hn, hr]
  · intro e hsrc
    cases rt <;> simp_all [AbstractScale.zero, AbstractScale.read, hn]

/-- Witness for C1 at a concrete scale, source and sample count. -/
theorem c1_zero_witness :
    AbstractScale.zero ⟨0, 5, 2⟩ ReadType.Average 1 (fun _ => Except.ok [100]) =
      { state := ⟨0, 5, roundHalfAwayFromZero (aggregateOf ReadType.Average [100] - ((2 : Int) : Rat))⟩
        err := none
        sourceCalled := true } :=
  (c1_zero_behaviour 0 5 2 ReadType.Average 1 (fun _ => Except.ok [100])
    (by decide) (by decide) (by decide)).1 [100] rfl

/-- C4 counterexample: read with an unknown aggregation kind does draw the
requested samples from the raw-value source before failing, and zero with an
unknown kind leaves the scale state changed (reference unit 1), refuting the
claims of rejection before hardware interaction and of an unchanged state. -/
theorem c4_unknown_counterexample :
    (AbstractScale.read ⟨0, 5, 2⟩ ReadType.Unknown 1 (fun _ => Except.ok [7])).sourceCalled = true
    ∧ (AbstractScale.read ⟨0, 5, 2⟩ ReadType.Unknown 1 (fun _ => Except.ok [7])).result
        = Except.error ScaleError.invalidArgument
    ∧ (AbstractScale.zero ⟨0, 5, 2⟩ ReadType.Unknown 1 (fun _ => Except.ok [7])).state.refUnit = 1
    ∧ (AbstractScale.zero ⟨0, 5, 2⟩ ReadType.Unknown 1 (fun _ => Except.ok [7])).state
        ≠ (⟨0, 5, 2⟩ : ScaleState) := by
  refine ⟨rfl, rfl, rfl, ?_⟩
  decide

/-- C4 (amended): with a sample count of at least one and a source that
produces its samples, read and zero with an unknown aggregation kind fail
with invalid_argument, but only after the samples have been drawn from the
raw-value source; read does not mutate the scale state, while zero leaves
the reference unit set to 1 with the offset and mass unit unchanged. -/
theorem c4_unknown_kind (u : MassUnit) (r o : Int) (n : Nat) (src : SampleSource)
    (vals : List Int) (hn : n ≠ 0) (hsrc : src n = Except.ok vals) :
    AbstractScale.read ⟨u, r, o⟩ ReadType.Unknown n src =
      { result := Except.error ScaleError.invalidArgument, sourceCalled := true }
    ∧ AbstractScale.zero ⟨u, r, o⟩ ReadType.Unknown n src =
      { state := ⟨u, 1, o⟩, err := some ScaleError.invalidArgument, sourceCalled := true } := by
  constructor
  · simp [AbstractScale.read, hn, hsrc]
  · simp [AbstractScale.zero, AbstractScale.read, hn, hsrc]

/-- Witness for C4 at a concrete scale, source and sample count. -/
theorem c4_unknown_witness :
    AbstractScale.read ⟨0, 5, 2⟩ ReadType.Unknown 1 (fun _ => Except.ok [9]) =
      { result := Except.error ScaleError.invalidArgument, sourceCalled := true } :=
  (c4_unknown_kind 0 5 2 1 (fun _ => Except.ok [9]) [9] (by decide) rfl).1

end HX711
